import Mathlib

/-!
Shallow embedding of the ootd repository's AI-workflow glue code:
the background-removal flow (src/ai/flows/remove-background.ts), the
clothing-item tagging flow (tagClothingItem), the outfit-idea generation
flow (src/ai/flows/tag-categories.ts), the guest-preferences loader
(UserPreferencesProvider) and the suggested-items render logic
(src/app/page.tsx).

External HTTP calls (storage upload, Replicate job submission and polling,
image download, the Gemini model, JSON.parse of provider text) are modelled
as environment oracles: each structure of the form SomethingEnv carries the
results those calls would produce, including thrown exceptions as
Except.error.  The local control flow, truthiness checks, regex JSON
extraction, field validation and fallback logic are translated from the
TypeScript source statement by statement.
-/

/-- A JavaScript/JSON runtime value as the flows observe it after
JSON.parse.  Numbers are modelled as integers (no claim depends on
fractional values); a missing object property is Option.none at the access
site, mirroring the JS value undefined. -/
inductive Json where
  | jnull : Json
  | jbool (b : Bool) : Json
  | jnum (n : Int) : Json
  | jstr (s : String) : Json
  | jarr (xs : List Json) : Json
  | jobj (fields : List (String × Json)) : Json


/-- JavaScript truthiness of a JSON value: null, false, 0 and the empty
string are falsy; every array and object is truthy. -/
def Json.truthy : Json → Bool
  | .jnull => false
  | .jbool b => b
  | .jnum n => n != 0
  | .jstr s => s != ""
  | .jarr _ => true
  | .jobj _ => true

/-- First binding of a key in an object's field list (JSON.parse yields
objects with unique keys). -/
def lookupField : List (String × Json) → String → Option Json
  | [], _ => none
  | (k, v) :: rest, key => if k = key then some v else lookupField rest key

/-- JS property access obj.k: undefined (none) when the value is not an
object or the key is absent. -/
def Json.getField (j : Json) (k : String) : Option Json :=
  match j with
  | .jobj fs => lookupField fs k
  | _ => none

/-- Truthiness of a possibly-undefined JS value. -/
def jtruthyOpt : Option Json → Bool
  | none => false
  | some j => j.truthy

/-- The JS expression v || dflt applied to a possibly-undefined value:
the value itself when truthy, the default otherwise. -/
def jsOr (v : Option Json) (dflt : Json) : Json :=
  match v with
  | none => dflt
  | some j => if j.truthy then j else dflt

/-- Drop list elements until the target character is found; none when it
never occurs.  The hit element is kept at the head. -/
def dropUntilChar (target : Char) : List Char → Option (List Char)
  | [] => none
  | c :: rest => if c = target then some (c :: rest) else dropUntilChar target rest

/-- The span the regex matching an opening brace, any characters, then a
closing brace (greedy) finds: from the first opening brace through the
last closing brace after it, none when no such pair exists. -/
def jsonCandidateChars (cs : List Char) : Option (List Char) :=
  match dropUntilChar '{' cs with
  | none => none
  | some tail =>
    match dropUntilChar '}' tail.reverse with
    | none => none
    | some rtail => some rtail.reverse

/-- text.match of the brace-to-brace regex used by all three flows,
returning the matched substring. -/
def jsonMatch (text : String) : Option String :=
  (jsonCandidateChars text.toList).map fun cs => String.mk cs

/-- The validated tagging result (part_002 lines 116-123): six fields, the
first two and the last defaulted with the JS or-operator, the two arrays
filtered by runtime type, hasPattern coerced with Boolean(). -/
structure TagOutput where
  category : Json
  subCategory : Json
  tags : List Json
  dominantColors : List Json
  hasPattern : Bool
  patternDescription : Json


/-- Runtime check typeof v === 'string'. -/
def isJStr : Json → Bool
  | .jstr _ => true
  | _ => false

/-- Runtime check typeof v === 'string' && v.startsWith('#'). -/
def jStartsWithHash : Json → Bool
  | .jstr s => s.startsWith "#"
  | _ => false

/-- The fixed fallback classification returned from the catch block of
tagClothingItem (part_002 lines 132-139). -/
def unknownTagOutput : TagOutput :=
  { category := .jstr "unknown"
  , subCategory := .jstr "unknown"
  , tags := []
  , dominantColors := []
  , hasPattern := false
  , patternDescription := .jstr "" }

/-- The validatedResult object built from the parsed model reply
(part_002 lines 116-123), field by field. -/
def validateTag (parsed : Json) : TagOutput :=
  { category := jsOr (parsed.getField "category") (.jstr "unknown")
  , subCategory := jsOr (parsed.getField "subCategory") (.jstr "unknown")
  , tags :=
      match parsed.getField "tags" with
      | some (.jarr xs) => xs.filter isJStr
      | _ => []
  , dominantColors :=
      match parsed.getField "dominantColors" with
      | some (.jarr xs) => xs.filter (fun j => isJStr j && jStartsWithHash j)
      | _ => []
  , hasPattern := jtruthyOpt (parsed.getField "hasPattern")
  , patternDescription := jsOr (parsed.getField "patternDescription") (.jstr "") }

/-- Environment of one tagClothingItem call: whether GEMINI_API_KEY is
set, the model reply text (or the exception any step inside the try block
throws), and the JSON.parse oracle (none when JSON.parse throws on the
extracted candidate). -/
structure TagEnv where
  apiKeyPresent : Bool
  modelReply : Except String String
  parse : String → Option Json

/-- tagClothingItem (part_002 lines 51-141): the credential check throws
before the try block; inside the try, a thrown model call, a reply without
a brace-delimited candidate, or a JSON.parse failure all reach the catch
block and yield the fixed unknown fallback. -/
def tagClothingItem (env : TagEnv) : Except String TagOutput :=
  if env.apiKeyPresent = false then
    .error "No Gemini API key found. Please set GEMINI_API_KEY in your .env file."
  else
    .ok (match env.modelReply with
      | .error _ => unknownTagOutput
      | .ok text =>
        match jsonMatch text with
        | none => unknownTagOutput
        | some c =>
          match env.parse c with
          | none => unknownTagOutput
          | some parsed => validateTag parsed)

/-- A sanitized clothing item as sent to generateOutfitIdea
(ClothingItemSchema in tag-categories.ts lines 87-110): the image payload
is stripped by the caller, optional fields stay optional. -/
structure OutfitItem where
  id : String
  category : String
  subCategory : Option String
  tags : List String
  dominantColors : Option (List String)
  hasPattern : Option Bool
  patternDescription : Option String

/-- The input of generateOutfitIdea (GenerateOutfitIdeaInputSchema,
tag-categories.ts lines 117-123).  Coordinates are integral here: they
only gate the weather lookup and feed the prompt, which goes to the
external model.  An inspiration item is its description together with its
sanitized items. -/
structure OutfitInput where
  latitude : Option Int
  longitude : Option Int
  occasion : Option String
  closetItems : Option (List OutfitItem)
  inspirationItems : Option (List (String × List OutfitItem))

/-- Environment of one generateOutfitIdea call: the credential flag, the
weather lookup result (its failure is swallowed and only the prompt text
changes), the model reply text or the exception the model call throws, and
the JSON.parse oracle. -/
structure OutfitEnv where
  apiKeyPresent : Bool
  weather : Except String String
  modelText : Except String String
  parse : String → Option Json

/-- The weather string embedded in the prompt (tag-categories.ts lines
156-163): fetched only when both coordinates are truthy, and a fetch
failure is caught, leaving it unavailable.  It feeds only the prompt sent
to the external model. -/
def weatherUsed (env : OutfitEnv) (input : OutfitInput) : Option String :=
  match input.latitude, input.longitude with
  | some lat, some lon =>
    if lat != 0 && lon != 0 then
      match env.weather with
      | .ok w => some w
      | .error _ => none
    else none
  | _, _ => none

/-- The outfit suggestion as built at runtime (tag-categories.ts lines
246-252 and 259-265).  Every field is the raw JS value the or-defaulting
produced; nothing re-checks that itemIds is an array of strings. -/
structure OutfitOutput where
  outfitDescription : Json
  itemIds : Json
  missingItems : Json
  weatherWarnings : Json
  alternativeOutfits : Json

/-- The deterministic fallback response (tag-categories.ts lines 259-265):
the ids of the first two closet items when a catalog was supplied (a
supplied empty catalog is a truthy JS array and also yields no ids),
empty arrays elsewhere. -/
def fallbackOutfit (input : OutfitInput) : OutfitOutput :=
  { outfitDescription :=
      .jstr "A stylish outfit suggestion based on your preferences and available items."
  , itemIds := .jarr (match input.closetItems with
      | some items => (items.take 2).map (fun it => Json.jstr it.id)
      | none => [])
  , missingItems := .jarr []
  , weatherWarnings := .jarr []
  , alternativeOutfits := .jarr [] }

/-- generateOutfitWithGemini (tag-categories.ts lines 150-266).  The model
call itself sits outside the try block, so its exception propagates; only
the brace extraction and JSON.parse are guarded, falling through to the
deterministic fallback. -/
def generateOutfitWithGemini (env : OutfitEnv) (input : OutfitInput) :
    Except String OutfitOutput :=
  match env.modelText with
  | .error e => .error e
  | .ok text =>
    .ok (match jsonMatch text with
      | some c =>
        match env.parse c with
        | some parsed =>
          { outfitDescription :=
              jsOr (parsed.getField "outfitDescription") (.jstr "A stylish outfit suggestion")
          , itemIds := jsOr (parsed.getField "itemIds") (.jarr [])
          , missingItems := jsOr (parsed.getField "missingItems") (.jarr [])
          , weatherWarnings := jsOr (parsed.getField "weatherWarnings") (.jarr [])
          , alternativeOutfits := jsOr (parsed.getField "alternativeOutfits") (.jarr []) }
        | none => fallbackOutfit input
      | none => fallbackOutfit input)

/-- generateOutfitIdea (tag-categories.ts lines 141-147): the credential
check runs synchronously before the flow body and is the only error raised
outside the parse guard; it depends on no oracle result. -/
def generateOutfitIdea (env : OutfitEnv) (input : OutfitInput) :
    Except String OutfitOutput :=
  if env.apiKeyPresent = false then
    .error "No Gemini API key found. Please set GEMINI_API_KEY in your .env file."
  else generateOutfitWithGemini env input

/-- The base64 alphabet in index order. -/
def base64Table : List Char :=
  "ABCDEFGHIJKLMNOPQRSTUVWXYZabcdefghijklmnopqrstuvwxyz0123456789+/".toList

/-- Character of one 6-bit group. -/
def b64char (n : Nat) : Char := base64Table.getD n '?'

/-- Standard base64 of a byte list (Buffer.toString with base64), three
bytes to four characters with trailing padding. -/
def base64Encode : List Nat → List Char
  | [] => []
  | [b1] => [b64char (b1 / 4), b64char (b1 % 4 * 16), '=', '=']
  | [b1, b2] => [b64char (b1 / 4), b64char (b1 % 4 * 16 + b2 / 16), b64char (b2 % 16 * 4), '=']
  | b1 :: b2 :: b3 :: rest =>
    b64char (b1 / 4) :: b64char (b1 % 4 * 16 + b2 / 16) ::
      b64char (b2 % 16 * 4 + b3 / 64) :: b64char (b3 % 64) :: base64Encode rest

/-- The data URI built from the downloaded result bytes
(remove-background.ts line 105): a fixed PNG header and the base64 text. -/
def pngDataUri (buf : List Nat) : String :=
  "data:image/png;base64," ++ String.mk (base64Encode buf)

/-- The replace call stripping the data-URI header from the input payload
(remove-background.ts line 48); the stripped text is only uploaded to the
external host. -/
def stripDataUriHeader (s : String) : String :=
  if s.startsWith "data:image/png;base64," then s.drop 22
  else if s.startsWith "data:image/jpeg;base64," then s.drop 23
  else if s.startsWith "data:image/jpg;base64," then s.drop 22
  else s

/-- Outcome of the polling loop body: the truthy output of a succeeded
poll, a thrown exception (a failed status or a fetch/json exception), or
fuel exhaustion. -/
inductive PollFinal where
  | success (out : Json) : PollFinal
  | thrown (e : String) : PollFinal
  | timedOut : PollFinal

/-- One polling-loop run: its outcome, how many status fetches it
performed, and how many fixed-interval sleeps it performed. -/
structure PollRun where
  final : PollFinal
  attempts : Nat
  sleeps : Nat

/-- pollJson.status === 'succeeded' && pollJson.output (line 89). -/
def pollSucceeded (pj : Json) : Bool :=
  (match pj.getField "status" with
   | some (.jstr s) => s == "succeeded"
   | _ => false) && jtruthyOpt (pj.getField "output")

/-- pollJson.status === 'failed' (line 93). -/
def pollFailed (pj : Json) : Bool :=
  match pj.getField "status" with
  | some (.jstr s) => s == "failed"
  | _ => false

/-- A poll response that hits neither terminal branch, so the loop sleeps
and retries. -/
def isNonTerminal (r : Except String Json) : Bool :=
  match r with
  | .error _ => false
  | .ok pj => !pollSucceeded pj && !pollFailed pj

/-- A poll response taking the failed-status branch. -/
def isFailedStatus (r : Except String Json) : Bool :=
  match r with
  | .error _ => false
  | .ok pj => !pollSucceeded pj && pollFailed pj

/-- The loop bound of the polling for-loop (line 84). -/
def maxPollAttempts : Nat := 20

/-- The fixed sleep between attempts, in milliseconds (line 96). -/
def pollIntervalMs : Nat := 1500

/-- The polling for-loop (remove-background.ts lines 84-97): each
iteration fetches the status (the oracle gives response i, an Except.error
when fetch or json throws), breaks with the output on a truthy succeeded
response, throws on a failed status, and otherwise sleeps one interval and
retries until the fuel runs out. -/
def runPollAux (polls : Nat → Except String Json) :
    Nat → Nat → Nat → Nat → PollRun
  | _, 0, attempts, sleeps => ⟨.timedOut, attempts, sleeps⟩
  | i, fuel + 1, attempts, sleeps =>
    match polls i with
    | .error e => ⟨.thrown e, attempts + 1, sleeps⟩
    | .ok pj =>
      if pollSucceeded pj then
        ⟨.success (jsOr (pj.getField "output") .jnull), attempts + 1, sleeps⟩
      else if pollFailed pj then
        ⟨.thrown "Background removal failed.", attempts + 1, sleeps⟩
      else runPollAux polls (i + 1) fuel (attempts + 1) (sleeps + 1)

/-- The polling loop as the flow runs it: up to maxPollAttempts status
checks starting from the first response. -/
def runPoll (polls : Nat → Except String Json) : PollRun :=
  runPollAux polls 0 maxPollAttempts 0 0

/-- Environment of one removeBackground call (remove-background.ts lines
40-113): the credential flag; the parsed JSON of the upload response; the
parsed JSON of the job-submission response; the successive poll responses;
and the downloaded result bytes.  Each oracle is an Except.error when the
corresponding fetch or json call throws. -/
structure RemoveBgEnv where
  apiTokenPresent : Bool
  uploadJson : Except String Json
  submitJson : Except String Json
  polls : Nat → Except String Json
  download : Except String (List Nat)

/-- The JS guard pattern v && v.k1 && v.k1.k2 used on the upload and
submission responses (lines 59 and 77): the inner value when every link of
the chain is truthy, none as soon as one is falsy or undefined. -/
def jsTruthyPath (j : Json) (k1 k2 : String) : Option Json :=
  if j.truthy = false then none
  else
    match j.getField k1 with
    | none => none
    | some d =>
      if d.truthy = false then none
      else
        match d.getField k2 with
        | none => none
        | some u => if u.truthy then some u else none

/-- The try block of removeBackgroundFlow (lines 41-106): credential
check, upload, upload-response guard, job submission, submission-response
guard, polling, timeout check, download and re-encoding.  Every throw is
an Except.error; the produced URLs feed only external calls. -/
def removeBgTry (env : RemoveBgEnv) (input : String) : Except String String :=
  if env.apiTokenPresent = false then
    .error "REPLICATE_API_TOKEN is not set in the environment."
  else
    let _base64 := stripDataUriHeader input
    match env.uploadJson with
    | .error e => .error e
    | .ok uploadJson =>
      match jsTruthyPath uploadJson "data" "url" with
      | none => .error "Failed to upload image for background removal."
      | some _imageUrl =>
        match env.submitJson with
        | .error e => .error e
        | .ok json =>
          match jsTruthyPath json "urls" "get" with
          | none => .error "Failed to start background removal prediction."
          | some _resultUrl =>
            match (runPoll env.polls).final with
            | .thrown e => .error e
            | .timedOut => .error "Background removal timed out."
            | .success _outputUrl =>
              match env.download with
              | .error e => .error e
              | .ok buf => .ok (pngDataUri buf)

/-- removeBackgroundFlow (lines 40-113): the whole try body under one
catch that falls back to the exact original payload. -/
def removeBackgroundFlow (env : RemoveBgEnv) (input : String) : String :=
  match removeBgTry env input with
  | .ok o => o
  | .error _ => input

/-- The Gender union of src/lib/types.ts line 18. -/
inductive Gender where
  | male : Gender
  | female : Gender
  | nonBinary : Gender
  | preferNotToSay : Gender

/-- The sizePreferences record of src/lib/types.ts lines 23-27. -/
structure SizePreferences where
  tops : Option String
  bottoms : Option String
  shoes : Option String

/-- UserPreferences (src/lib/types.ts lines 20-30): every field optional. -/
structure UserPreferences where
  gender : Option Gender
  stylePreferences : Option (List String)
  sizePreferences : Option SizePreferences
  colorPreferences : Option (List String)
  occasionPreferences : Option (List String)

/-- The documented default preferences object (part_000 lines 18-24):
undefined gender, empty style/size/color/occasion preference fields. -/
def defaultPreferences : UserPreferences :=
  { gender := none
  , stylePreferences := some []
  , sizePreferences := some ⟨none, none, none⟩
  , colorPreferences := some []
  , occasionPreferences := some [] }

/-- What the preferences state holds after the guest branch ran: either
the default object or the raw value JSON.parse produced (the code casts it
without validation). -/
inductive PrefsView where
  | structured (p : UserPreferences) : PrefsView
  | raw (j : Json) : PrefsView

/-- The guest branch of UserPreferencesProvider (part_000 lines 56-68):
read localStorage (none when the key is absent), treat a falsy stored
string as missing, JSON.parse it otherwise (the oracle is none when parse
throws), and fall back to the default object in the catch. -/
def loadGuestPreferences (stored : Option String)
    (parse : String → Option Json) : PrefsView :=
  match stored with
  | none => .structured defaultPreferences
  | some s =>
    if s = "" then .structured defaultPreferences
    else
      match parse s with
      | some j => .raw j
      | none => .structured defaultPreferences

/-- ClothingItem (src/lib/types.ts lines 1-10). -/
structure ClothingItem where
  id : String
  photoDataUri : String
  category : String
  subCategory : String
  tags : List String
  dominantColors : List String
  hasPattern : Bool
  patternDescription : Option String

/-- The suggestedItems render value (src/app/page.tsx lines 229-231): for
each suggested identifier, in order, the first catalog item with that id;
identifiers without a live catalog item are filtered out. -/
def suggestedItems (itemIds : List String) (closetItems : List ClothingItem) :
    List ClothingItem :=
  (itemIds.map (fun i => closetItems.find? (fun item => item.id == i))).filterMap
    (fun x => x)

/-- What addInspirationItem receives (page.tsx lines 233-244): the current
outfit description and exactly the displayed suggestedItems. -/
structure SavedInspiration where
  description : String
  items : List ClothingItem

/-- handleSaveInspiration (page.tsx lines 233-244) for a present current
outfit. -/
def handleSaveInspiration (outfitDescription : String) (itemIds : List String)
    (closet : List ClothingItem) : SavedInspiration :=
  { description := outfitDescription
  , items := suggestedItems itemIds closet }

theorem runPollAux_attempts_le (polls : Nat → Except String Json) :
    ∀ fuel i attempts sleeps,
      (runPollAux polls i fuel attempts sleeps).attempts ≤ attempts + fuel := by
  intro fuel
  induction fuel with
  | zero => intro i a s; simp [runPollAux]
  | succ n ih =>
    intro i a s
    unfold runPollAux
    rcases h : polls i with e | pj
    · simp
    · by_cases h1 : pollSucceeded pj
      · simp [h1]
      · by_cases h2 : pollFailed pj
        · simp [h1, h2]
        · simp only [h1, h2, if_false, Bool.false_eq_true]
          have := ih (i + 1) (a + 1) (s + 1)
          omega

theorem runPollAux_timeout (polls : Nat → Except String Json) :
    ∀ fuel i attempts sleeps,
      (∀ k, k < fuel → isNonTerminal (polls (i + k)) = true) →
      runPollAux polls i fuel attempts sleeps =
        ⟨.timedOut, attempts + fuel, sleeps + fuel⟩ := by
  intro fuel
  induction fuel with
  | zero => intro i a s _; simp [runPollAux]
  | succ n ih =>
    intro i a s hall
    have h0 := hall 0 (Nat.succ_pos n)
    unfold runPollAux
    rcases h : polls i with e | pj
    · rw [Nat.add_zero, h] at h0; simp [isNonTerminal] at h0
    · rw [Nat.add_zero, h] at h0
      simp only [isNonTerminal, Bool.and_eq_true, Bool.not_eq_true'] at h0
      simp only [h0.1, h0.2, if_false, Bool.false_eq_true]
      have hrec := ih (i + 1) (a + 1) (s + 1) (fun k hk => by
        have h2 := hall (k + 1) (by omega)
        rw [show i + (k + 1) = i + 1 + k by omega] at h2
        exact h2)
      rw [hrec]
      congr 1 <;> omega

theorem runPollAux_counts (polls : Nat → Except String Json) :
    ∀ fuel i attempts sleeps,
      ((runPollAux polls i fuel attempts sleeps).final = .timedOut →
        (runPollAux polls i fuel attempts sleeps).attempts = attempts + fuel ∧
        (runPollAux polls i fuel attempts sleeps).sleeps = sleeps + fuel) ∧
      ((runPollAux polls i fuel attempts sleeps).final ≠ .timedOut →
        (runPollAux polls i fuel attempts sleeps).attempts =
          attempts + ((runPollAux polls i fuel attempts sleeps).sleeps - sleeps) + 1 ∧
        sleeps ≤ (runPollAux polls i fuel attempts sleeps).sleeps) := by
  intro fuel
  induction fuel with
  | zero => intro i a s; refine ⟨fun _ => by simp [runPollAux], fun hne => ?_⟩
            exact absurd rfl hne
  | succ n ih =>
    intro i a s
    unfold runPollAux
    rcases h : polls i with e | pj
    · exact ⟨fun hfin => by simp at hfin, fun _ => by simp⟩
    · by_cases h1 : pollSucceeded pj
      · simp only [h1, if_true]
        exact ⟨fun hfin => by simp at hfin, fun _ => by simp⟩
      · by_cases h2 : pollFailed pj
        · simp only [h1, h2, if_false, if_true, Bool.false_eq_true]
          exact ⟨fun hfin => by simp at hfin, fun _ => by simp⟩
        · simp only [h1, h2, if_false, Bool.false_eq_true]
          have hrec := ih (i + 1) (a + 1) (s + 1)
          refine ⟨fun hfin => ?_, fun hne => ?_⟩
          · have := hrec.1 hfin
            omega
          · have := hrec.2 hne
            omega

theorem runPollAux_failed (polls : Nat → Except String Json) :
    ∀ fuel i attempts sleeps m, m < fuel →
      (∀ j, j < m → isNonTerminal (polls (i + j)) = true) →
      isFailedStatus (polls (i + m)) = true →
      (runPollAux polls i fuel attempts sleeps).final =
        .thrown "Background removal failed." := by
  intro fuel
  induction fuel with
  | zero => intro i a s m hm; omega
  | succ n ih =>
    intro i a s m hm hnon hfail
    unfold runPollAux
    rcases m with _ | m'
    · rw [Nat.add_zero] at hfail
      rcases h : polls i with e | pj
      · rw [h] at hfail; simp [isFailedStatus] at hfail
      · rw [h] at hfail
        simp only [isFailedStatus, Bool.and_eq_true, Bool.not_eq_true'] at hfail
        simp [hfail.1, hfail.2]
    · have h0 := hnon 0 (Nat.succ_pos m')
      rcases h : polls i with e | pj
      · rw [Nat.add_zero, h] at h0; simp [isNonTerminal] at h0
      · rw [Nat.add_zero, h] at h0
        simp only [isNonTerminal, Bool.and_eq_true, Bool.not_eq_true'] at h0
        simp only [h0.1, h0.2, if_false, Bool.false_eq_true]
        refine ih (i + 1) (a + 1) (s + 1) m' (by omega) (fun j hj => ?_) ?_
        · have h2 := hnon (j + 1) (by omega)
          rw [show i + (j + 1) = i + 1 + j by omega] at h2
          exact h2
        · rw [show i + 1 + m' = i + (m' + 1) by omega]
          exact hfail

theorem removeBgTry_ok_cases (env : RemoveBgEnv) (input o : String)
    (h : removeBgTry env input = Except.ok o) :
    (∃ out, (runPoll env.polls).final = PollFinal.success out) ∧
    ∃ buf, env.download = Except.ok buf ∧ o = pngDataUri buf := by
  unfold removeBgTry at h
  by_cases ht : env.apiTokenPresent = false
  · rw [if_pos ht] at h; exact absurd h (by simp)
  rw [if_neg ht] at h
  rcases hu : env.uploadJson with e | uj
  · rw [hu] at h; exact absurd h (by simp)
  simp only [hu] at h
  rcases hg1 : jsTruthyPath uj "data" "url" with _ | u
  · simp only [hg1] at h; exact absurd h (by simp)
  simp only [hg1] at h
  rcases hs : env.submitJson with e | sj
  · simp only [hs] at h; exact absurd h (by simp)
  simp only [hs] at h
  rcases hg2 : jsTruthyPath sj "urls" "get" with _ | g
  · simp only [hg2] at h; exact absurd h (by simp)
  simp only [hg2] at h
  rcases hp : (runPoll env.polls).final with out | e | _
  · simp only [hp] at h
    rcases hd : env.download with e | buf
    · simp only [hd] at h; exact absurd h (by simp)
    simp only [hd, Except.ok.injEq] at h
    exact ⟨⟨out, rfl⟩, buf, rfl, h.symm⟩
  · simp only [hp] at h; exact absurd h (by simp)
  · simp only [hp] at h; exact absurd h (by simp)

theorem removeBg_success_run (env : RemoveBgEnv) (input : String)
    (uj sj : Json) (out : Json) (buf : List Nat)
    (ht : env.apiTokenPresent = true)
    (hu : env.uploadJson = Except.ok uj)
    (hg1 : (jsTruthyPath uj "data" "url").isSome = true)
    (hs : env.submitJson = Except.ok sj)
    (hg2 : (jsTruthyPath sj "urls" "get").isSome = true)
    (hp : (runPoll env.polls).final = PollFinal.success out)
    (hd : env.download = Except.ok buf) :
    removeBackgroundFlow env input = pngDataUri buf := by
  rcases Option.isSome_iff_exists.mp hg1 with ⟨u, hu1⟩
  rcases Option.isSome_iff_exists.mp hg2 with ⟨g, hg⟩
  unfold removeBackgroundFlow removeBgTry
  simp only [ht, Bool.true_eq_false, if_false, hu, hu1, hs, hg, hp, hd]

theorem base64Encode_length : ∀ bs : List Nat,
    (base64Encode bs).length = 4 * ((bs.length + 2) / 3)
  | [] => by simp [base64Encode]
  | [b1] => by simp [base64Encode]
  | [b1, b2] => by simp [base64Encode]
  | b1 :: b2 :: b3 :: rest => by
    have ih := base64Encode_length rest
    simp only [base64Encode, List.length_cons, ih]
    omega

theorem pngDataUri_length (buf : List Nat) :
    (pngDataUri buf).length = 22 + 4 * ((buf.length + 2) / 3) := by
  unfold pngDataUri
  rw [String.length_append]
  have h1 : ("data:image/png;base64," : String).length = 22 := rfl
  have h2 : (String.mk (base64Encode buf)).length = (base64Encode buf).length := rfl
  rw [h1, h2, base64Encode_length]

/-- C1: for every environment (any outcome of every external step) and
every input payload, removeBackground never raises: it either returns the
exact original payload unchanged, or the freshly encoded result of a
successful download.  Every failure path lands in the first disjunct with
no partial result. -/
theorem removeBackground_fallback_or_new (env : RemoveBgEnv) (input : String) :
    removeBackgroundFlow env input = input ∨
    ∃ buf, env.download = Except.ok buf ∧
      removeBackgroundFlow env input = pngDataUri buf := by
  rcases h : removeBgTry env input with e | o
  · left; unfold removeBackgroundFlow; rw [h]
  · right
    rcases removeBgTry_ok_cases env input o h with ⟨_, buf, hd, ho⟩
    exact ⟨buf, hd, by unfold removeBackgroundFlow; rw [h, ho]⟩

theorem flow_eq_input_of_not_success (env : RemoveBgEnv) (input : String)
    (h : ∀ out, (runPoll env.polls).final ≠ PollFinal.success out) :
    removeBackgroundFlow env input = input := by
  rcases ho : removeBgTry env input with e | o
  · unfold removeBackgroundFlow; rw [ho]
  · rcases removeBgTry_ok_cases env input o ho with ⟨⟨out, hp⟩, _⟩
    exact absurd hp (h out)

/-- C5: the polling loop performs at most 20 status checks; when no
terminal status is observed in those 20 attempts it times out having slept
the fixed 1.5-unit interval after every attempt (20 sleeps), and the
workflow falls back to the original input; every earlier attempt is
separated from the next by exactly one interval sleep (attempts equals
sleeps plus one whenever the loop exits early); an observed job-failed
status throws and ends in the same fallback as the timeout. -/
theorem pollLoop_twenty_attempts_fallback (env : RemoveBgEnv) (input : String) :
    (runPoll env.polls).attempts ≤ maxPollAttempts ∧
    ((runPoll env.polls).final = PollFinal.timedOut →
      (runPoll env.polls).attempts = maxPollAttempts ∧
      (runPoll env.polls).sleeps = maxPollAttempts ∧
      removeBackgroundFlow env input = input) ∧
    ((runPoll env.polls).final ≠ PollFinal.timedOut →
      (runPoll env.polls).attempts = (runPoll env.polls).sleeps + 1) ∧
    ((∀ k, k < maxPollAttempts → isNonTerminal (env.polls k) = true) →
      runPoll env.polls = ⟨PollFinal.timedOut, maxPollAttempts, maxPollAttempts⟩) ∧
    (∀ m, m < maxPollAttempts →
      (∀ j, j < m → isNonTerminal (env.polls j) = true) →
      isFailedStatus (env.polls m) = true →
      (runPoll env.polls).final = PollFinal.thrown "Background removal failed.") ∧
    (∀ e, (runPoll env.polls).final = PollFinal.thrown e →
      removeBackgroundFlow env input = input) := by
  have hle := runPollAux_attempts_le env.polls maxPollAttempts 0 0 0
  have hcounts := runPollAux_counts env.polls maxPollAttempts 0 0 0
  refine ⟨by simpa [runPoll] using hle, fun hfin => ?_, fun hne => ?_, fun hall => ?_,
    fun m hm hnon hfail => ?_, fun e hfin => ?_⟩
  · have h1 := hcounts.1 hfin
    refine ⟨by simpa using h1.1, by simpa using h1.2, ?_⟩
    exact flow_eq_input_of_not_success env input (fun out h2 => by
      rw [hfin] at h2; exact PollFinal.noConfusion h2)
  · simp only [runPoll] at hne ⊢
    have h2 := hcounts.2 hne
    omega
  · have := runPollAux_timeout env.polls maxPollAttempts 0 0 0 (fun k hk => by
      rw [Nat.zero_add]; exact hall k hk)
    simpa [runPoll] using this
  · have := runPollAux_failed env.polls maxPollAttempts 0 0 0 m hm (fun j hj => by
      rw [Nat.zero_add]; exact hnon j hj) (by rw [Nat.zero_add]; exact hfail)
    simpa [runPoll] using this
  · exact flow_eq_input_of_not_success env input (fun out h2 => by
      rw [hfin] at h2; exact PollFinal.noConfusion h2)

/-- The upload response used by the concrete success environments. -/
def bigUpload : Json := .jobj [("data", Json.jobj [("url", Json.jstr "u")])]

/-- The submission response used by the concrete success environments. -/
def bigSubmit : Json := .jobj [("urls", Json.jobj [("get", Json.jstr "g")])]

/-- A poll response that immediately succeeds with a truthy output. -/
def bigPollResp : Json :=
  .jobj [("status", Json.jstr "succeeded"), ("output", Json.jstr "o")]

/-- A fully successful run environment whose downloaded result has n
bytes. -/
def bigEnv (n : Nat) : RemoveBgEnv :=
  { apiTokenPresent := true
  , uploadJson := .ok bigUpload
  , submitJson := .ok bigSubmit
  , polls := fun _ => .ok bigPollResp
  , download := .ok (List.replicate n 65) }

/-- The size-ceiling behaviour the specification ascribes to
removeBackground: some fixed byte ceiling exists past which the final
encoded payload is rejected and the original input returned instead. -/
def removalSizeCeilingClaim : Prop :=
  ∃ maxBytes : Nat, ∀ (env : RemoveBgEnv) (input : String) (buf : List Nat),
    env.download = Except.ok buf →
    maxBytes < (pngDataUri buf).length →
    removeBackgroundFlow env input = input

/-- C4 counterexample: no byte-size ceiling exists in the code.  For any
purported ceiling, the environment whose successful download holds enough
bytes produces an encoded payload longer than the ceiling, and the flow
still returns that payload rather than the original input. -/
theorem removeBackground_no_size_ceiling : removalSizeCeilingClaim = False := by
  apply eq_false
  rintro ⟨C, h⟩
  have hrun : removeBackgroundFlow (bigEnv (3 * (C + 1))) "" =
      pngDataUri (List.replicate (3 * (C + 1)) 65) :=
    removeBg_success_run (bigEnv (3 * (C + 1))) "" bigUpload bigSubmit
      (Json.jstr "o") (List.replicate (3 * (C + 1)) 65) rfl rfl rfl rfl rfl rfl rfl
  have hlen : (pngDataUri (List.replicate (3 * (C + 1)) 65)).length =
      22 + 4 * (C + 1) := by
    rw [pngDataUri_length, List.length_replicate]
    omega
  have hfall : removeBackgroundFlow (bigEnv (3 * (C + 1))) "" = "" :=
    h (bigEnv (3 * (C + 1))) "" (List.replicate (3 * (C + 1)) 65) rfl
      (by rw [hlen]; omega)
  rw [hrun] at hfall
  rw [hfall] at hlen
  have hz : ("" : String).length = 0 := rfl
  omega

/-- C4 (amended): on a fully successful run, removeBackground returns the
downloaded result bytes re-encoded verbatim as a base64 PNG data URI,
whatever their number: the code performs no resize and enforces no
byte-size ceiling, so the encoded length grows without bound with the
download (22 header characters plus four characters per three bytes). -/
theorem removeBackground_success_returns_encoded (env : RemoveBgEnv)
    (input : String) (uj sj out : Json) (buf : List Nat)
    (ht : env.apiTokenPresent = true)
    (hu : env.uploadJson = Except.ok uj)
    (hg1 : (jsTruthyPath uj "data" "url").isSome = true)
    (hs : env.submitJson = Except.ok sj)
    (hg2 : (jsTruthyPath sj "urls" "get").isSome = true)
    (hp : (runPoll env.polls).final = PollFinal.success out)
    (hd : env.download = Except.ok buf) :
    removeBackgroundFlow env input = pngDataUri buf ∧
    (pngDataUri buf).length = 22 + 4 * ((buf.length + 2) / 3) :=
  ⟨removeBg_success_run env input uj sj out buf ht hu hg1 hs hg2 hp hd,
    pngDataUri_length buf⟩

/-- Witness for the amended C4 theorem at a concrete successful run with a
three-byte download. -/
theorem removeBackground_success_returns_encoded_witness :
    removeBackgroundFlow (bigEnv 3) "orig" = pngDataUri (List.replicate 3 65) ∧
    (pngDataUri (List.replicate 3 65)).length = 22 + 4 * ((3 + 2) / 3) :=
  removeBackground_success_returns_encoded (bigEnv 3) "orig" bigUpload bigSubmit
    (Json.jstr "o") (List.replicate 3 65) rfl rfl rfl rfl rfl rfl rfl

/-- A tagging environment in which GEMINI_API_KEY is absent. -/
def cEnvC2 : TagEnv :=
  { apiKeyPresent := false, modelReply := .ok "", parse := fun _ => none }

/-- C2 counterexample: with the credential absent, tagClothingItem throws
the missing-key error to its caller instead of degrading to the unknown
fallback object, because the credential check sits before the try/catch
(part_002 lines 53-55). -/
theorem tagClothingItem_missing_key_raises :
    tagClothingItem cEnvC2 =
      Except.error "No Gemini API key found. Please set GEMINI_API_KEY in your .env file." ∧
    tagClothingItem cEnvC2 ≠ Except.ok unknownTagOutput :=
  ⟨rfl, fun h => by
    rw [(rfl : tagClothingItem cEnvC2 =
      Except.error "No Gemini API key found. Please set GEMINI_API_KEY in your .env file.")] at h
    exact Except.noConfusion h⟩

/-- C2 (amended): once the credential is present, tagClothingItem never
raises, and a thrown model call, a reply without a brace-delimited JSON
candidate, or a JSON.parse failure each yield exactly the fixed unknown
classification; only a missing credential raises, before the try block. -/
theorem tagClothingItem_fallback_amended (env : TagEnv)
    (h : env.apiKeyPresent = true) :
    (∃ out, tagClothingItem env = Except.ok out) ∧
    (∀ e, env.modelReply = Except.error e →
      tagClothingItem env = Except.ok unknownTagOutput) ∧
    (∀ text, env.modelReply = Except.ok text → jsonMatch text = none →
      tagClothingItem env = Except.ok unknownTagOutput) ∧
    (∀ text c, env.modelReply = Except.ok text → jsonMatch text = some c →
      env.parse c = none →
      tagClothingItem env = Except.ok unknownTagOutput) := by
  have hnot : ¬(env.apiKeyPresent = false) := by simp [h]
  refine ⟨⟨_, by unfold tagClothingItem; rw [if_neg hnot]⟩,
    fun e hm => ?_, fun text hm hj => ?_, fun text c hm hj hp => ?_⟩
  · unfold tagClothingItem
    rw [if_neg hnot, hm]
  · unfold tagClothingItem
    rw [if_neg hnot, hm]
    simp only [hj]
  · unfold tagClothingItem
    rw [if_neg hnot, hm]
    simp only [hj, hp]

/-- A tagging environment with the credential present and a throwing
model call. -/
def cEnvC2w : TagEnv :=
  { apiKeyPresent := true, modelReply := .error "network down", parse := fun _ => none }

/-- Witness for the amended C2 theorem: a thrown model call with the
credential present lands in the unknown fallback. -/
theorem tagClothingItem_fallback_amended_witness :
    tagClothingItem cEnvC2w = Except.ok unknownTagOutput :=
  (tagClothingItem_fallback_amended cEnvC2w rfl).2.1 "network down" rfl

/-- An outfit environment with the credential present whose model call
throws. -/
def cEnvC3 : OutfitEnv :=
  { apiKeyPresent := true
  , weather := .error "w"
  , modelText := .error "model call failed"
  , parse := fun _ => none }

/-- A trivial outfit input. -/
def cInTrivial : OutfitInput :=
  { latitude := none, longitude := none, occasion := none
  , closetItems := none, inspirationItems := none }

/-- C3 counterexample: the model call of generateOutfitWithGemini sits
outside its try block (tag-categories.ts line 238), so with the credential
present a thrown model call surfaces an error to the caller; raising is
not equivalent to a missing credential. -/
theorem generateOutfitIdea_model_error_surfaces :
    cEnvC3.apiKeyPresent = true ∧
    generateOutfitIdea cEnvC3 cInTrivial = Except.error "model call failed" :=
  ⟨rfl, rfl⟩

/-- C3 (amended): the missing-credential check raises synchronously and
independently of every oracle result (no network effect is consulted);
with the credential present, a reply that was obtained but holds no JSON
candidate, or whose candidate fails to parse, yields the deterministic
fallback and no error; but an exception thrown by the model call itself
propagates past the boundary. -/
theorem generateOutfitIdea_credential_and_fallback (env env2 : OutfitEnv)
    (input : OutfitInput) :
    (env.apiKeyPresent = false →
      generateOutfitIdea env input =
        Except.error "No Gemini API key found. Please set GEMINI_API_KEY in your .env file.") ∧
    (env.apiKeyPresent = false → env2.apiKeyPresent = false →
      generateOutfitIdea env input = generateOutfitIdea env2 input) ∧
    (∀ e, env.apiKeyPresent = true → env.modelText = Except.error e →
      generateOutfitIdea env input = Except.error e) ∧
    (∀ text, env.apiKeyPresent = true → env.modelText = Except.ok text →
      jsonMatch text = none →
      generateOutfitIdea env input = Except.ok (fallbackOutfit input)) ∧
    (∀ text c, env.apiKeyPresent = true → env.modelText = Except.ok text →
      jsonMatch text = some c → env.parse c = none →
      generateOutfitIdea env input = Except.ok (fallbackOutfit input)) ∧
    (∀ text, env.apiKeyPresent = true → env.modelText = Except.ok text →
      ∃ out, generateOutfitIdea env input = Except.ok out) := by
  refine ⟨fun hk => ?_, fun hk hk2 => ?_, fun e hk hm => ?_,
    fun text hk hm hj => ?_, fun text c hk hm hj hp => ?_, fun text hk hm => ?_⟩
  · unfold generateOutfitIdea; rw [if_pos hk]
  · unfold generateOutfitIdea; rw [if_pos hk, if_pos hk2]
  · unfold generateOutfitIdea generateOutfitWithGemini
    rw [if_neg (by simp [hk]), hm]
  · unfold generateOutfitIdea generateOutfitWithGemini
    rw [if_neg (by simp [hk]), hm]
    simp only [hj]
  · unfold generateOutfitIdea generateOutfitWithGemini
    rw [if_neg (by simp [hk]), hm]
    simp only [hj, hp]
  · unfold generateOutfitIdea generateOutfitWithGemini
    rw [if_neg (by simp [hk]), hm]
    exact ⟨_, rfl⟩

/-- The model reply text of the empty-catalog counterexample: a JSON
object carrying a non-empty itemIds array. -/
def cTextC6 : String := "\x7b\"itemIds\":[\"x\"]\x7d"

/-- What JSON.parse produces on that reply. -/
def cJsonC6 : Json := .jobj [("itemIds", Json.jarr [Json.jstr "x"])]

/-- The outfit environment of the empty-catalog counterexample. -/
def cEnvC6 : OutfitEnv :=
  { apiKeyPresent := true
  , weather := .error "unavailable"
  , modelText := .ok cTextC6
  , parse := fun s => if s = cTextC6 then some cJsonC6 else none }

/-- An input whose catalog snapshot is the empty list. -/
def cInC6 : OutfitInput :=
  { latitude := none, longitude := none, occasion := some "brunch"
  , closetItems := some [], inspirationItems := none }

/-- C6 counterexample: with an empty catalog, a model reply carrying a
non-empty itemIds array is passed through verbatim by the or-defaulting
(tag-categories.ts line 248); nothing re-checks the ids against the empty
catalog, so itemIds of the result is not the empty list. -/
theorem generateOutfit_emptyCatalog_counterexample :
    cInC6.closetItems = some [] ∧
    generateOutfitIdea cEnvC6 cInC6 = Except.ok
      { outfitDescription := Json.jstr "A stylish outfit suggestion"
      , itemIds := Json.jarr [Json.jstr "x"]
      , missingItems := Json.jarr []
      , weatherWarnings := Json.jarr []
      , alternativeOutfits := Json.jarr [] } ∧
    Json.jarr [Json.jstr "x"] ≠ Json.jarr [] :=
  ⟨rfl, rfl, by simp⟩

/-- C6 (amended): with an empty catalog the itemIds field is the empty
array exactly on the fallback paths (no JSON candidate in the reply, or a
candidate JSON.parse rejects); when the reply parses, itemIds is whatever
the model returned, defaulted to the empty array only when absent or
falsy. -/
theorem generateOutfit_emptyCatalog_amended (env : OutfitEnv)
    (input : OutfitInput) (text : String)
    (hc : input.closetItems = some [])
    (hk : env.apiKeyPresent = true)
    (hm : env.modelText = Except.ok text) :
    (jsonMatch text = none →
      generateOutfitIdea env input = Except.ok (fallbackOutfit input) ∧
      (fallbackOutfit input).itemIds = Json.jarr []) ∧
    (∀ c, jsonMatch text = some c → env.parse c = none →
      generateOutfitIdea env input = Except.ok (fallbackOutfit input) ∧
      (fallbackOutfit input).itemIds = Json.jarr []) ∧
    (∀ c parsed, jsonMatch text = some c → env.parse c = some parsed →
      ∃ out, generateOutfitIdea env input = Except.ok out ∧
        out.itemIds = jsOr (parsed.getField "itemIds") (Json.jarr [])) := by
  have hempty : (fallbackOutfit input).itemIds = Json.jarr [] := by
    simp [fallbackOutfit, hc]
  refine ⟨fun hj => ⟨?_, hempty⟩, fun c hj hp => ⟨?_, hempty⟩,
    fun c parsed hj hp => ?_⟩
  · unfold generateOutfitIdea generateOutfitWithGemini
    rw [if_neg (by simp [hk]), hm]
    simp only [hj]
  · unfold generateOutfitIdea generateOutfitWithGemini
    rw [if_neg (by simp [hk]), hm]
    simp only [hj, hp]
  · refine ⟨OutfitOutput.mk
      (jsOr (parsed.getField "outfitDescription") (Json.jstr "A stylish outfit suggestion"))
      (jsOr (parsed.getField "itemIds") (Json.jarr []))
      (jsOr (parsed.getField "missingItems") (Json.jarr []))
      (jsOr (parsed.getField "weatherWarnings") (Json.jarr []))
      (jsOr (parsed.getField "alternativeOutfits") (Json.jarr [])), ?_, rfl⟩
    unfold generateOutfitIdea generateOutfitWithGemini
    rw [if_neg (by simp [hk]), hm]
    simp only [hj, hp]

/-- The outfit environment of the amended C6 witness: an empty catalog and
a reply without any JSON candidate. -/
def cEnvC6w : OutfitEnv :=
  { apiKeyPresent := true
  , weather := .error "unavailable"
  , modelText := .ok "no json here"
  , parse := fun _ => none }

/-- The empty-catalog input of the amended C6 witness. -/
def cInC6w : OutfitInput :=
  { latitude := none, longitude := none, occasion := some "brunch"
  , closetItems := some [], inspirationItems := none }

/-- Witness for the amended C6 theorem at a concrete empty-catalog call
whose reply holds no JSON. -/
theorem generateOutfit_emptyCatalog_amended_witness :
    generateOutfitIdea cEnvC6w cInC6w = Except.ok (fallbackOutfit cInC6w) ∧
    (fallbackOutfit cInC6w).itemIds = Json.jarr [] :=
  (generateOutfit_emptyCatalog_amended cEnvC6w cInC6w "no json here"
    rfl rfl rfl).1 rfl

/-- C7: with the credential present, a reply obtained from the model that
contains no brace-delimited JSON object yields exactly the deterministic
fallback: itemIds are the ids of the first two catalog items in order
(empty when no catalog was supplied), and the missing-item, warning and
alternative lists are all empty. -/
theorem generateOutfit_noJson_fallback (env : OutfitEnv) (input : OutfitInput)
    (text : String)
    (hk : env.apiKeyPresent = true)
    (hm : env.modelText = Except.ok text)
    (hj : jsonMatch text = none) :
    generateOutfitIdea env input = Except.ok (fallbackOutfit input) ∧
    (fallbackOutfit input).itemIds =
      Json.jarr (((input.closetItems.getD []).take 2).map (fun it => Json.jstr it.id)) ∧
    (fallbackOutfit input).missingItems = Json.jarr [] ∧
    (fallbackOutfit input).weatherWarnings = Json.jarr [] ∧
    (fallbackOutfit input).alternativeOutfits = Json.jarr [] := by
  refine ⟨?_, ?_, rfl, rfl, rfl⟩
  · unfold generateOutfitIdea generateOutfitWithGemini
    rw [if_neg (by simp [hk]), hm]
    simp only [hj]
  · rcases hci : input.closetItems with _ | items <;> simp [fallbackOutfit, hci]

/-- The first scenario catalog item of the specification (id a). -/
def scenarioItemA : OutfitItem :=
  { id := "a", category := "top", subCategory := some "t-shirt"
  , tags := ["casual"], dominantColors := none, hasPattern := none
  , patternDescription := none }

/-- The second scenario catalog item of the specification (id b). -/
def scenarioItemB : OutfitItem :=
  { id := "b", category := "bottom", subCategory := some "jeans"
  , tags := ["casual"], dominantColors := none, hasPattern := none
  , patternDescription := none }

/-- The scenario input: catalog of the two items, occasion brunch, no
coordinates (weather unavailable). -/
def cInC7 : OutfitInput :=
  { latitude := none, longitude := none, occasion := some "brunch"
  , closetItems := some [scenarioItemA, scenarioItemB]
  , inspirationItems := none }

/-- The scenario environment: credential present, weather lookup failing,
a model reply with no JSON object in it. -/
def cEnvC7 : OutfitEnv :=
  { apiKeyPresent := true
  , weather := .error "unavailable"
  , modelText := .ok "no json in this reply"
  , parse := fun _ => none }

/-- Witness for C7 at the specification's two-item scenario: the fallback
yields itemIds a then b and empty remaining lists. -/
theorem generateOutfit_noJson_fallback_witness :
    generateOutfitIdea cEnvC7 cInC7 = Except.ok (fallbackOutfit cInC7) ∧
    (fallbackOutfit cInC7).itemIds = Json.jarr [Json.jstr "a", Json.jstr "b"] ∧
    (fallbackOutfit cInC7).missingItems = Json.jarr [] ∧
    (fallbackOutfit cInC7).weatherWarnings = Json.jarr [] ∧
    (fallbackOutfit cInC7).alternativeOutfits = Json.jarr [] :=
  generateOutfit_noJson_fallback cEnvC7 cInC7 "no json in this reply" rfl rfl rfl

/-- A possibly-undefined JS value that the or-defaulting turns into a
string: absent, already a string, or falsy (so the string default is
substituted). -/
def stringish (v : Option Json) : Bool :=
  match v with
  | none => true
  | some (.jstr _) => true
  | some j => !j.truthy

theorem isJStr_jsOr_of_stringish (v : Option Json) (d : String)
    (hv : stringish v = true) : isJStr (jsOr v (Json.jstr d)) = true := by
  rcases v with _ | j
  · rfl
  rcases j with _ | b | n | s | xs | fs
  · rfl
  · rcases b with _ | _
    · rfl
    · simp [stringish, Json.truthy] at hv
  · by_cases hn : n = 0
    · subst hn; rfl
    · simp [stringish, Json.truthy, hn] at hv
  · simp only [jsOr, Json.truthy]
    split <;> rfl
  · simp [stringish, Json.truthy] at hv
  · simp [stringish, Json.truthy] at hv

theorem tagResult_shape (env : TagEnv) (h : env.apiKeyPresent = true) :
    ∃ out, tagClothingItem env = Except.ok out ∧
      (out = unknownTagOutput ∨ ∃ p, out = validateTag p) := by
  unfold tagClothingItem
  rw [if_neg (by simp [h])]
  rcases env.modelReply with e | text
  · exact ⟨unknownTagOutput, rfl, Or.inl rfl⟩
  rcases hj : jsonMatch text with _ | c
  · exact ⟨unknownTagOutput, by simp [hj], Or.inl rfl⟩
  rcases hp : env.parse c with _ | parsed
  · exact ⟨unknownTagOutput, by simp [hj, hp], Or.inl rfl⟩
  · exact ⟨validateTag parsed, by simp [hj, hp], Or.inr ⟨parsed, rfl⟩⟩

/-- The model reply of the non-string-category counterexample. -/
def cTextC8 : String := "\x7b\"category\":5\x7d"

/-- What JSON.parse produces on that reply: a numeric category field. -/
def cJsonC8 : Json := .jobj [("category", Json.jnum 5)]

/-- The tagging environment of the non-string-category counterexample. -/
def cEnvC8 : TagEnv :=
  { apiKeyPresent := true
  , modelReply := .ok cTextC8
  , parse := fun s => if s = cTextC8 then some cJsonC8 else none }

/-- C8 counterexample: the or-defaulting of category (part_002 line 117)
passes a truthy non-string model value through unchanged, so the returned
category is the number 5, not a string. -/
theorem tagOutput_nonstring_category_counterexample :
    tagClothingItem cEnvC8 = Except.ok
      { category := Json.jnum 5
      , subCategory := Json.jstr "unknown"
      , tags := []
      , dominantColors := []
      , hasPattern := false
      , patternDescription := Json.jstr "" } ∧
    isJStr (Json.jnum 5) = false :=
  ⟨rfl, rfl⟩

/-- C8 (amended): every result has all six fields populated; tags and
dominantColors are always arrays containing only strings and every kept
color starts with the hash character; hasPattern is always a boolean; and
category, subCategory and patternDescription are strings whenever the
parsed field is absent, falsy or itself a string, but a truthy non-string
model value passes through unchanged. -/
theorem tagOutput_fields_amended (env : TagEnv) (parsed : Json)
    (h : env.apiKeyPresent = true) :
    (∃ out, tagClothingItem env = Except.ok out ∧
      (out = unknownTagOutput ∨ ∃ p, out = validateTag p)) ∧
    (validateTag parsed).tags.all isJStr = true ∧
    (validateTag parsed).dominantColors.all
      (fun j => isJStr j && jStartsWithHash j) = true ∧
    (stringish (parsed.getField "category") = true →
      isJStr (validateTag parsed).category = true) ∧
    (stringish (parsed.getField "subCategory") = true →
      isJStr (validateTag parsed).subCategory = true) ∧
    (stringish (parsed.getField "patternDescription") = true →
      isJStr (validateTag parsed).patternDescription = true) ∧
    unknownTagOutput.tags = ([] : List Json) ∧
    unknownTagOutput.dominantColors = ([] : List Json) ∧
    unknownTagOutput.hasPattern = false := by
  refine ⟨tagResult_shape env h, ?_, ?_,
    fun hs => isJStr_jsOr_of_stringish _ _ hs,
    fun hs => isJStr_jsOr_of_stringish _ _ hs,
    fun hs => isJStr_jsOr_of_stringish _ _ hs, rfl, rfl, rfl⟩
  · simp only [validateTag]
    split
    · rename_i xs _
      simp only [List.all_eq_true]
      intro j hj
      exact (List.mem_filter.mp hj).2
    · rfl
  · simp only [validateTag]
    split
    · rename_i xs _
      simp only [List.all_eq_true]
      intro j hj
      exact (List.mem_filter.mp hj).2
    · rfl

/-- The tagging environment of the amended C8 witness. -/
def cEnvC8w : TagEnv :=
  { apiKeyPresent := true, modelReply := .error "boom", parse := fun _ => none }

/-- A parsed reply exercising the filters of the amended C8 witness. -/
def cParsedC8w : Json :=
  .jobj [("category", Json.jstr "top")
  , ("tags", Json.jarr [Json.jstr "casual", Json.jnum 3])
  , ("dominantColors", Json.jarr [Json.jstr "#fff", Json.jstr "red"])
  , ("hasPattern", Json.jbool true)]

/-- Witness for the amended C8 theorem at a concrete environment and
parsed value. -/
theorem tagOutput_fields_amended_witness :
    (∃ out, tagClothingItem cEnvC8w = Except.ok out ∧
      (out = unknownTagOutput ∨ ∃ p, out = validateTag p)) ∧
    (validateTag cParsedC8w).tags.all isJStr = true ∧
    (validateTag cParsedC8w).dominantColors.all
      (fun j => isJStr j && jStartsWithHash j) = true ∧
    (stringish (cParsedC8w.getField "category") = true →
      isJStr (validateTag cParsedC8w).category = true) ∧
    (stringish (cParsedC8w.getField "subCategory") = true →
      isJStr (validateTag cParsedC8w).subCategory = true) ∧
    (stringish (cParsedC8w.getField "patternDescription") = true →
      isJStr (validateTag cParsedC8w).patternDescription = true) ∧
    unknownTagOutput.tags = ([] : List Json) ∧
    unknownTagOutput.dominantColors = ([] : List Json) ∧
    unknownTagOutput.hasPattern = false :=
  tagOutput_fields_amended cEnvC8w cParsedC8w rfl

/-- C9: for a guest identity, a missing stored preferences value or one
JSON.parse rejects never raises: the in-memory view is set to the
documented default object, whose gender is undefined and whose
style, size, color and occasion preference fields are empty. -/
theorem guestPreferences_default_on_missing_or_corrupt
    (stored : Option String) (parse : String → Option Json)
    (h : stored = none ∨ ∀ s, stored = some s → parse s = none) :
    loadGuestPreferences stored parse = PrefsView.structured defaultPreferences ∧
    defaultPreferences.gender = none ∧
    defaultPreferences.stylePreferences = some [] ∧
    defaultPreferences.sizePreferences = some ⟨none, none, none⟩ ∧
    defaultPreferences.colorPreferences = some [] ∧
    defaultPreferences.occasionPreferences = some [] := by
  refine ⟨?_, rfl, rfl, rfl, rfl, rfl⟩
  rcases hs : stored with _ | s
  · rfl
  · unfold loadGuestPreferences
    dsimp only
    by_cases he : s = ""
    · rw [if_pos he]
    · rw [if_neg he]
      rcases h with h | h
      · rw [hs] at h; exact Option.noConfusion h
      · rw [h s hs]

/-- Witness for C9 at a concrete corrupt stored value every parse
rejects. -/
theorem guestPreferences_default_witness :
    loadGuestPreferences (some "not valid json") (fun _ => none) =
      PrefsView.structured defaultPreferences ∧
    defaultPreferences.gender = none ∧
    defaultPreferences.stylePreferences = some [] ∧
    defaultPreferences.sizePreferences = some ⟨none, none, none⟩ ∧
    defaultPreferences.colorPreferences = some [] ∧
    defaultPreferences.occasionPreferences = some [] :=
  guestPreferences_default_on_missing_or_corrupt (some "not valid json")
    (fun _ => none) (Or.inr (fun _ _ => rfl))

/-- C10: the displayed suggestion is exactly the suggested identifiers
resolved against the live catalog in suggestion order: each displayed item
is a catalog item carrying a suggested id, an identifier no catalog item
carries is silently dropped and never displayed, and saving an inspiration
stores exactly the displayed items. -/
theorem suggestedItems_catalog_filter (itemIds : List String)
    (closet : List ClothingItem) (descr : String) :
    suggestedItems itemIds closet =
      itemIds.filterMap (fun i => closet.find? (fun item => item.id == i)) ∧
    (∀ it, it ∈ suggestedItems itemIds closet → it ∈ closet ∧ it.id ∈ itemIds) ∧
    (∀ i, i ∈ itemIds → (∀ it, it ∈ closet → it.id ≠ i) →
      ∀ it, it ∈ suggestedItems itemIds closet → it.id ≠ i) ∧
    (handleSaveInspiration descr itemIds closet).items =
      suggestedItems itemIds closet := by
  have hmain : suggestedItems itemIds closet =
      itemIds.filterMap (fun i => closet.find? (fun item => item.id == i)) := by
    unfold suggestedItems
    rw [List.filterMap_map]
    rfl
  refine ⟨hmain, fun it hit => ?_, fun i _ hnone it hit => ?_, rfl⟩
  · rw [hmain] at hit
    rcases List.mem_filterMap.mp hit with ⟨i, hi, hfind⟩
    have hmem := List.mem_of_find?_eq_some hfind
    have hpred := List.find?_some hfind
    have : it.id = i := by simpa using hpred
    exact ⟨hmem, this ▸ hi⟩
  · rw [hmain] at hit
    rcases List.mem_filterMap.mp hit with ⟨i2, _, hfind⟩
    exact hnone it (List.mem_of_find?_eq_some hfind)
